import Mathlib

/-!
Verification of the NRCA retailer database converter
(`convert_retailers.py`).

The script reads tabular sources, normalizes each raw row into a fixed
17-field retailer record with truthiness-based alias fallback, merges the
records of all sources in lexicographic file order, computes distinct-value
metadata, and emits a JavaScript artifact.  This file gives a shallow
embedding of that pipeline and proves the specified properties about it.
-/

namespace NrcaConvert

/-- Scalar values as delivered by a pandas row: absent column (`None`),
missing cell (`NaN`), strings, integers, and floats (modelled as
rationals). -/
inductive PyVal where
  | none : PyVal
  | nan : PyVal
  | str (s : String) : PyVal
  | int (n : Int) : PyVal
  | float (q : Rat) : PyVal
deriving DecidableEq

/-- Python truthiness of a scalar: `None` is falsy, `NaN` is truthy,
a string is truthy iff non-empty, a number is truthy iff non-zero. -/
def pyTruthy : PyVal → Bool
  | PyVal.none => false
  | PyVal.nan => true
  | PyVal.str s => decide (s ≠ "")
  | PyVal.int n => decide (n ≠ 0)
  | PyVal.float q => decide (q ≠ 0)

/-- Python `a or b`: the first operand if truthy, otherwise the second. -/
def pyOr (a b : PyVal) : PyVal := if pyTruthy a then a else b

/-- Decimal rendering of a float value.  Integral values render as in
Python (`"5.0"`); non-integral rationals are abbreviated to a
numerator/denominator form, a rendering no theorem below depends on. -/
def floatRepr (q : Rat) : String :=
  if q.den = 1 then toString q.num ++ ".0"
  else toString q.num ++ "/" ++ toString q.den

/-- Python `str(v)` on our value domain. -/
def pyStr : PyVal → String
  | PyVal.none => "None"
  | PyVal.nan => "nan"
  | PyVal.str s => s
  | PyVal.int n => toString n
  | PyVal.float q => floatRepr q

/-- `pd.notna(v)`: false exactly on `None` and `NaN`. -/
def pdNotna : PyVal → Bool
  | PyVal.none => false
  | PyVal.nan => false
  | _ => true

/-- Numeric value of a list of decimal digits. -/
def natOfDigits (cs : List Char) : Nat :=
  cs.foldl (fun a c => a * 10 + (c.toNat - 48)) 0

/-- All characters are decimal digits. -/
def allDigits (cs : List Char) : Bool := cs.all Char.isDigit

/-- Python `float(s)` on decimal literals: optional sign, digits with an
optional single decimal point (scientific notation and the `inf`/`nan`
spellings are not exercised by the pipeline and are treated as
unparseable). -/
def parseFloat? (s : String) : Option Rat :=
  let cs := s.data
  let signed : Rat × List Char :=
    match cs with
    | '-' :: rest => (-1, rest)
    | '+' :: rest => (1, rest)
    | _ => (1, cs)
  let sgn := signed.1
  let body := signed.2
  match body.span (fun c => decide (c ≠ '.')) with
  | (intPart, []) =>
    if intPart ≠ [] ∧ allDigits intPart then
      some (sgn * (natOfDigits intPart : Rat))
    else Option.none
  | (intPart, _ :: fracPart) =>
    if (intPart ≠ [] ∨ fracPart ≠ []) ∧ allDigits intPart ∧ allDigits fracPart then
      some (sgn * ((natOfDigits intPart : Rat) +
        (natOfDigits fracPart : Rat) / ((10 : Rat) ^ fracPart.length)))
    else Option.none

/-- Python `int(s)` on integer literals: optional sign then digits. -/
def parseInt? (s : String) : Option Int :=
  match s.data with
  | '-' :: rest =>
    if rest ≠ [] ∧ allDigits rest then some (-(natOfDigits rest : Int)) else Option.none
  | '+' :: rest =>
    if rest ≠ [] ∧ allDigits rest then some ((natOfDigits rest : Int)) else Option.none
  | cs =>
    if cs ≠ [] ∧ allDigits cs then some ((natOfDigits cs : Int)) else Option.none

/-- Truncation toward zero, the behaviour of Python `int` on a float. -/
def ratTrunc (q : Rat) : Int := if 0 ≤ q then q.floor else q.ceil

/-- A raw row: an association of source column names to scalar values.
A column absent from the association is read as `None`, as with
`row.get`. -/
abbrev RawRecord := List (String × PyVal)

/-- `row.get(k)`: the value under `k`, or `None` when the column is
absent. -/
def rowGet (row : RawRecord) (k : String) : PyVal :=
  (List.lookup k row).getD PyVal.none

/-- A canonical field value: string, nullable float, or nullable
integer. -/
inductive CVal where
  | s (v : String) : CVal
  | f (v : Option Rat) : CVal
  | i (v : Option Int) : CVal
deriving DecidableEq

/-- A normalized retailer record: the ordered key/value pairs of the dict
literal built for each row. -/
abbrev Retailer := List (String × CVal)

/-- `float(v) if pd.notna(v) else None`: `None`/`NaN` give null; a
parseable value gives its float; a present but unparseable value raises
(`Except.error`). -/
def coerceFloat : PyVal → Except Unit (Option Rat)
  | PyVal.none => Except.ok Option.none
  | PyVal.nan => Except.ok Option.none
  | PyVal.str s =>
    match parseFloat? s with
    | some q => Except.ok (some q)
    | Option.none => Except.error ()
  | PyVal.int n => Except.ok (some (n : Rat))
  | PyVal.float q => Except.ok (some q)

/-- `int(v) if pd.notna(v) else None`, with the same failure behaviour as
`coerceFloat`. -/
def coerceInt : PyVal → Except Unit (Option Int)
  | PyVal.none => Except.ok Option.none
  | PyVal.nan => Except.ok Option.none
  | PyVal.str s =>
    match parseInt? s with
    | some n => Except.ok (some n)
    | Option.none => Except.error ()
  | PyVal.int n => Except.ok (some n)
  | PyVal.float q => Except.ok (some (ratTrunc q))

/-- The retailer dict literal of `parse_excel_file`, with the four numeric
fields already coerced.  Keys appear in source order. -/
def mkRetailer (row : RawRecord) (idx : Nat)
    (latitude longitude rating : Option Rat) (ratingCount : Option Int) : Retailer :=
  [("id", CVal.s (pyStr (pyOr (rowGet row "poi_id")
      (pyOr (rowGet row "ID") (PyVal.int (idx : Int)))))),
   ("name", CVal.s (pyStr (pyOr (rowGet row "name")
      (pyOr (rowGet row "Name") (PyVal.str "Unknown"))))),
   ("locality", CVal.s (pyStr (pyOr (rowGet row "locality")
      (pyOr (rowGet row "Locality") (PyVal.str ""))))),
   ("postcode", CVal.s (pyStr (pyOr (rowGet row "postcode")
      (pyOr (rowGet row "Postcode") (PyVal.str ""))))),
   ("address", CVal.s (pyStr (pyOr (rowGet row "address")
      (pyOr (rowGet row "Address") (PyVal.str ""))))),
   ("latitude", CVal.f latitude),
   ("longitude", CVal.f longitude),
   ("category", CVal.s (pyStr (pyOr (rowGet row "category_level1")
      (pyOr (rowGet row "Category") (PyVal.str ""))))),
   ("subcategory", CVal.s (pyStr (pyOr (rowGet row "category_level2")
      (pyOr (rowGet row "Subcategory") (PyVal.str ""))))),
   ("category_detail", CVal.s (pyStr (pyOr (rowGet row "category_level3")
      (pyOr (rowGet row "Detail") (PyVal.str ""))))),
   ("business_status", CVal.s (pyStr (pyOr (rowGet row "business_status")
      (pyOr (rowGet row "Status") (PyVal.str ""))))),
   ("police_force", CVal.s (pyStr (pyOr (rowGet row "Police_Force")
      (pyOr (rowGet row "Force") (PyVal.str ""))))),
   ("tactical_area", CVal.s (pyStr (pyOr (rowGet row "Tactical_Area") (PyVal.str "")))),
   ("local_authority", CVal.s (pyStr (pyOr (rowGet row "Local_Authority") (PyVal.str "")))),
   ("rating", CVal.f rating),
   ("rating_count", CVal.i ratingCount),
   ("phone", CVal.s (pyStr (pyOr (rowGet row "phone") (PyVal.str "")))),
   ("website", CVal.s (pyStr (pyOr (rowGet row "website_domain") (PyVal.str ""))))]

/-- Normalization of one raw row at source-local ordinal `idx`: the four
numeric coercions are evaluated in source order and any failure raises out
of the row (to be caught by the sheet loop). -/
def normalizeRow (row : RawRecord) (idx : Nat) : Except Unit Retailer :=
  match coerceFloat (rowGet row "latitude") with
  | Except.error e => Except.error e
  | Except.ok latitude =>
    match coerceFloat (rowGet row "longitude") with
    | Except.error e => Except.error e
    | Except.ok longitude =>
      match coerceFloat (rowGet row "rating") with
      | Except.error e => Except.error e
      | Except.ok rating =>
        match coerceInt (rowGet row "rating_count") with
        | Except.error e => Except.error e
        | Except.ok ratingCount =>
          Except.ok (mkRetailer row idx latitude longitude rating ratingCount)

/-- The per-sheet row loop: rows are normalized at consecutive ordinals
and appended in order; the first raised coercion error aborts the
remainder of the sheet (the surrounding `except` continues with the next
sheet, keeping the rows already produced). -/
def processRows : List RawRecord → Nat → List Retailer
  | [], _ => []
  | r :: rs, idx =>
    match normalizeRow r idx with
    | Except.ok rec => rec :: processRows rs (idx + 1)
    | Except.error _ => []

/-- Every row of the sheet normalizes without error, starting at ordinal
`idx`. -/
def allRowsOk : List RawRecord → Nat → Bool
  | [], _ => true
  | r :: rs, idx =>
    (match normalizeRow r idx with
     | Except.ok _ => true
     | Except.error _ => false) && allRowsOk rs (idx + 1)

/-- A workbook: its sheets in order, each a list of raw rows.  An
unreadable workbook contributes no sheets. -/
abbrev FileData := List (List RawRecord)

/-- `parse_excel_file`: accumulate the records of every sheet of one
workbook, in sheet order. -/
def parseExcelFile (sheets : FileData) : List Retailer :=
  sheets.foldl (fun acc s => acc ++ processRows s 0) []

/-- Discovery filter of `main`: keep files ending in `.xlsx` that do not
start with `~`. -/
def isExcel (p : String × FileData) : Bool :=
  p.1.endsWith ".xlsx" && !(p.1.startsWith "~")

/-- Ordering of discovered files by name, as `sorted(excel_files)`. -/
def fileLe (a b : String × FileData) : Prop := a.1 ≤ b.1

instance : DecidableRel fileLe :=
  fun a b => inferInstanceAs (Decidable (a.1 ≤ b.1))

instance : IsTotal (String × FileData) fileLe := ⟨fun a b => le_total a.1 b.1⟩

instance : IsTrans (String × FileData) fileLe := ⟨fun _ _ _ h1 h2 => le_trans h1 h2⟩

/-- `sorted(excel_files)`: the discovered files in lexicographic name
order. -/
def sortByName (l : List (String × FileData)) : List (String × FileData) :=
  List.insertionSort fileLe l

/-- The merge loop of `main`: process files in sorted order, extending the
running record list with each file's records. -/
def mergeSources (listing : List (String × FileData)) : List Retailer :=
  (sortByName listing).foldl (fun acc p => acc ++ parseExcelFile p.2) []

/-- Truthiness of a canonical field value, as Python sees the emitted dict
values. -/
def cTruthy : CVal → Bool
  | CVal.s v => decide (v ≠ "")
  | CVal.f Option.none => false
  | CVal.f (some q) => decide (q ≠ 0)
  | CVal.i Option.none => false
  | CVal.i (some n) => decide (n ≠ 0)

/-- `r.get(k, d)` on a retailer dict. -/
def retailerGetD (r : Retailer) (k : String) (d : CVal) : CVal :=
  (List.lookup k r).getD d

/-- `len(set(r.get(k, '') for r in rs if r.get(k)))`: the number of
distinct truthy values of field `k`.  A Python `None` default is modelled
by the null value `CVal.f Option.none`, which is likewise falsy. -/
def uniqueCount (rs : List Retailer) (k : String) : Nat :=
  (((rs.filter fun r => cTruthy (retailerGetD r k (CVal.f Option.none))).map
      fun r => retailerGetD r k (CVal.s "")).dedup).length

/-- The metadata of a merged record list: total count and the three
distinct-value counts computed by `main`. -/
def metadataOf (rs : List Retailer) : Nat × Nat × Nat × Nat :=
  (rs.length, uniqueCount rs "police_force", uniqueCount rs "locality",
    uniqueCount rs "category")

/-- Thousands-separated decimal rendering, as Python format spec `,`
(input is the reversed digit list). -/
def commaGroupRev : List Char → List Char
  | d1 :: d2 :: d3 :: d4 :: rest => d1 :: d2 :: d3 :: ',' :: commaGroupRev (d4 :: rest)
  | l => l

/-- Render `n` with thousands separators. -/
def commaFmt (n : Nat) : String :=
  String.mk (commaGroupRev (toString n).data.reverse).reverse

/-- JSON escaping of one character (quote, backslash and newline; other
control characters do not occur in the data model). -/
def jsonEscapeChar (c : Char) : String :=
  if c = '"' then "\\\""
  else if c = '\\' then "\\\\"
  else if c = '\n' then "\\n"
  else String.singleton c

/-- JSON string literal. -/
def jsonStr (s : String) : String :=
  "\"" ++ String.join (s.data.map jsonEscapeChar) ++ "\""

/-- JSON rendering of a canonical field value; null for absent numerics. -/
def cvalJson : CVal → String
  | CVal.s v => jsonStr v
  | CVal.f Option.none => "null"
  | CVal.f (some q) => floatRepr q
  | CVal.i Option.none => "null"
  | CVal.i (some n) => toString n

/-- One retailer object under `json.dumps(..., indent=2)`. -/
def retailerJson (r : Retailer) : String :=
  if r = [] then "  \x7b\x7d"
  else
    "  \x7b\n" ++
      String.intercalate ",\n"
        (r.map fun kv => "    " ++ jsonStr kv.1 ++ ": " ++ cvalJson kv.2) ++
      "\n  \x7d"

/-- `json.dumps(all_retailers, indent=2)`. -/
def jsonDumps (rs : List Retailer) : String :=
  if rs = [] then "[]"
  else "[\n" ++ String.intercalate ",\n" (rs.map retailerJson) ++ "\n]"

/-- The `js_content` string assembled by `main` for the given source file
names and merged records. -/
def buildArtifact (sourceFiles : List String) (rs : List Retailer) : String :=
  "// NRCA Retailer Database - Auto-generated\n" ++
  "// Complete POI (Point-of-Interest) dataset\n" ++
  "// Generated from: " ++ String.intercalate ", " sourceFiles ++ "\n" ++
  "// Total records: " ++ commaFmt rs.length ++ "\n" ++
  "// Structure: Array of retailer objects with full details\n\n" ++
  "const RETAILERS_DATA = " ++ jsonDumps rs ++ ";\n" ++
  "\n// Metadata\n" ++
  "const RETAILER_COUNT = " ++ commaFmt rs.length ++ ";\n" ++
  "const UNIQUE_POLICE_FORCES = " ++ toString (uniqueCount rs "police_force") ++ ";\n" ++
  "const UNIQUE_LOCALITIES = " ++ toString (uniqueCount rs "locality") ++ ";\n" ++
  "const UNIQUE_CATEGORIES = " ++ toString (uniqueCount rs "category") ++ ";\n"

/-- The run of `main` on a directory listing: filter to Excel files; with
none present, stop without an artifact; otherwise merge in sorted order
and build the artifact text. -/
def runConversion (listing : List (String × FileData)) : Option String :=
  if listing.filter isExcel = [] then Option.none
  else
    some (buildArtifact ((sortByName (listing.filter isExcel)).map Prod.fst)
      (mergeSources (listing.filter isExcel)))

/-- The 17 canonical field names, in the order of the source dict
literal. -/
def canonicalFields : List String :=
  ["id", "name", "locality", "postcode", "address", "latitude", "longitude",
   "category", "subcategory", "category_detail", "business_status",
   "police_force", "tactical_area", "local_authority", "rating",
   "rating_count", "phone", "website"]

/-- The two-alias string fields of the canonical schema: canonical name,
first alias, second alias. -/
def aliasTable : List (String × String × String) :=
  [("id", "poi_id", "ID"),
   ("name", "name", "Name"),
   ("locality", "locality", "Locality"),
   ("postcode", "postcode", "Postcode"),
   ("address", "address", "Address"),
   ("category", "category_level1", "Category"),
   ("subcategory", "category_level2", "Subcategory"),
   ("category_detail", "category_level3", "Detail"),
   ("business_status", "business_status", "Status"),
   ("police_force", "Police_Force", "Force")]

/-- A sample raw row holding both aliases of `category`. -/
def rowBothCategory : RawRecord :=
  [("category_level1", PyVal.str "Food"), ("Category", PyVal.str "Drink")]

/-- A sample raw row whose `latitude` is present but unparseable. -/
def rowBadLatitude : RawRecord := [("latitude", PyVal.str "not a number")]

/-- A sample raw row with only a name column. -/
def rowOnlyName : RawRecord := [("name", PyVal.str "Shop A")]

/-- A sample raw row whose `poi_id` is the falsy number `0` and that has
no `ID` column. -/
def rowZeroPoiId : RawRecord := [("poi_id", PyVal.int 0)]

/-- Sample records whose `police_force` values are `X`, `X`, `Y`, the
empty string and null. -/
def forceExample : List Retailer :=
  [[("police_force", CVal.s "X")],
   [("police_force", CVal.s "X")],
   [("police_force", CVal.s "Y")],
   [("police_force", CVal.s "")],
   [("police_force", CVal.f Option.none)]]

/-- A sample one-sheet workbook with one well-formed row. -/
def fileAlpha : FileData := [[rowOnlyName]]

/-- A second sample one-sheet workbook, with two well-formed rows. -/
def fileBeta : FileData := [[rowZeroPoiId, []]]

/-- A successful normalization decomposes into four successful numeric
coercions and the dict literal built from them. -/
lemma normalizeRow_ok_elim (row : RawRecord) (idx : Nat) (rec : Retailer)
    (h : normalizeRow row idx = Except.ok rec) :
    ∃ lat lon rat rc,
      coerceFloat (rowGet row "latitude") = Except.ok lat ∧
      coerceFloat (rowGet row "longitude") = Except.ok lon ∧
      coerceFloat (rowGet row "rating") = Except.ok rat ∧
      coerceInt (rowGet row "rating_count") = Except.ok rc ∧
      rec = mkRetailer row idx lat lon rat rc := by
  unfold normalizeRow at h
  cases hlat : coerceFloat (rowGet row "latitude") with
  | error e => rw [hlat] at h; cases h
  | ok lat =>
    rw [hlat] at h
    cases hlon : coerceFloat (rowGet row "longitude") with
    | error e => rw [hlon] at h; cases h
    | ok lon =>
      rw [hlon] at h
      cases hrat : coerceFloat (rowGet row "rating") with
      | error e => rw [hrat] at h; cases h
      | ok rat =>
        rw [hrat] at h
        cases hrc : coerceInt (rowGet row "rating_count") with
        | error e => rw [hrc] at h; cases h
        | ok rc =>
          rw [hrc] at h
          cases h
          exact ⟨lat, lon, rat, rc, rfl, rfl, rfl, rfl, rfl⟩

/-- The sheet loop with a truthful prefix stops at the first failing row,
keeping exactly the records of the prefix. -/
lemma processRows_append_of_error (pre post : List RawRecord) (bad : RawRecord)
    (i : Nat) (hpre : allRowsOk pre i = true)
    (hbad : normalizeRow bad (i + pre.length) = Except.error ()) :
    processRows (pre ++ bad :: post) i = processRows pre i := by
  induction pre generalizing i with
  | nil =>
    simp only [List.length_nil, Nat.add_zero] at hbad
    simp [processRows, hbad]
  | cons r pre' ih =>
    simp only [allRowsOk, Bool.and_eq_true] at hpre
    cases hnr : normalizeRow r i with
    | error e => rw [hnr] at hpre; simp at hpre
    | ok rec =>
      have hbad' : normalizeRow bad ((i + 1) + pre'.length) = Except.error () := by
        have : (i + 1) + pre'.length = i + (r :: pre').length := by
          simp [List.length_cons]; omega
        rw [this]; exact hbad
      simp [processRows, hnr, ih (i + 1) hpre.2 hbad']

/-- Folding the per-sheet accumulation from any starting accumulator
prepends that accumulator to the file's records. -/
lemma foldl_sheets_append (sheets : List (List RawRecord)) (acc : List Retailer) :
    sheets.foldl (fun a s => a ++ processRows s 0) acc = acc ++ parseExcelFile sheets := by
  induction sheets generalizing acc with
  | nil => simp [parseExcelFile]
  | cons s rest ih =>
    simp only [parseExcelFile, List.foldl_cons, List.nil_append]
    rw [ih (acc ++ processRows s 0), ih (processRows s 0), List.append_assoc]

/-- A workbook's records are the concatenation of its sheets' records. -/
lemma parseExcelFile_cons (s : List RawRecord) (rest : List (List RawRecord)) :
    parseExcelFile (s :: rest) = processRows s 0 ++ parseExcelFile rest := by
  simp only [parseExcelFile, List.foldl_cons, List.nil_append]
  exact foldl_sheets_append rest (processRows s 0)

/-- When every row of a sheet normalizes, the loop emits one record per
row. -/
lemma processRows_length_of_ok (rows : List RawRecord) (i : Nat)
    (h : allRowsOk rows i = true) :
    (processRows rows i).length = rows.length := by
  induction rows generalizing i with
  | nil => rfl
  | cons r rs ih =>
    simp only [allRowsOk, Bool.and_eq_true] at h
    cases hnr : normalizeRow r i with
    | error e => rw [hnr] at h; simp at h
    | ok rec => simp [processRows, hnr, ih (i + 1) h.2]

/-- Sorting two discovered files by name puts the lexicographically
smaller name first. -/
lemma sortByName_pair (nA nB : String) (A B : FileData) (hlt : nA < nB) :
    sortByName [(nB, B), (nA, A)] = [(nA, A), (nB, B)] := by
  have hnle : ¬ fileLe (nB, B) (nA, A) := fun hle => absurd hlt (not_lt.mpr hle)
  simp [sortByName, List.insertionSort, List.orderedInsert, hnle]

/-- A one-sheet workbook contributes exactly its sheet's records. -/
lemma parseExcelFile_single (s : List RawRecord) :
    parseExcelFile [s] = processRows s 0 := by
  simp [parseExcelFile]

end NrcaConvert

/-- C1: every normalized record has exactly the 17 canonical fields, in
order, with no missing and no extra keys. -/
theorem normalized_record_has_canonical_fields
    (row : NrcaConvert.RawRecord) (idx : Nat) (rec : NrcaConvert.Retailer)
    (h : NrcaConvert.normalizeRow row idx = Except.ok rec) :
    rec.map Prod.fst = NrcaConvert.canonicalFields := by
  obtain ⟨lat, lon, rat, rc, _, _, _, _, hrec⟩ :=
    NrcaConvert.normalizeRow_ok_elim row idx rec h
  subst hrec
  rfl

/-- C1 witness: the empty raw row normalizes successfully and the result
carries exactly the canonical field names. -/
theorem normalized_record_has_canonical_fields_wit :
    NrcaConvert.normalizeRow [] 0 =
      Except.ok (NrcaConvert.mkRetailer [] 0 Option.none Option.none Option.none Option.none) ∧
    (NrcaConvert.mkRetailer [] 0 Option.none Option.none Option.none Option.none).map Prod.fst =
      NrcaConvert.canonicalFields :=
  ⟨rfl, normalized_record_has_canonical_fields [] 0 _ rfl⟩

/-- C2: for every two-alias field, resolution consults the aliases in
declared order: a truthy value under the first alias wins, and an empty
string under the first alias is treated as absent, so a truthy value under
the second alias wins instead. -/
theorem alias_precedence_first_nonempty
    (row : NrcaConvert.RawRecord) (idx : Nat) (rec : NrcaConvert.Retailer)
    (f a1 a2 : String) (hmem : (f, a1, a2) ∈ NrcaConvert.aliasTable)
    (h : NrcaConvert.normalizeRow row idx = Except.ok rec) :
    (NrcaConvert.pyTruthy (NrcaConvert.rowGet row a1) = true →
      List.lookup f rec = some (NrcaConvert.CVal.s (NrcaConvert.pyStr (NrcaConvert.rowGet row a1)))) ∧
    (NrcaConvert.rowGet row a1 = NrcaConvert.PyVal.str "" →
      NrcaConvert.pyTruthy (NrcaConvert.rowGet row a2) = true →
      List.lookup f rec = some (NrcaConvert.CVal.s (NrcaConvert.pyStr (NrcaConvert.rowGet row a2)))) := by
  obtain ⟨lat, lon, rat, rc, _, _, _, _, hrec⟩ :=
    NrcaConvert.normalizeRow_ok_elim row idx rec h
  subst hrec
  have h0 : NrcaConvert.pyTruthy (NrcaConvert.PyVal.str "") = false := rfl
  fin_cases hmem <;>
    exact ⟨fun ht => by
        simp [NrcaConvert.mkRetailer, List.lookup, NrcaConvert.pyOr, ht],
      fun he ht2 => by
        simp [NrcaConvert.mkRetailer, List.lookup, NrcaConvert.pyOr, he, h0, ht2]⟩

/-- C2 witness: a row holding both aliases of `category`; the first
alias's value is the one stored. -/
theorem alias_precedence_first_nonempty_wit :
    ∃ rec, NrcaConvert.normalizeRow NrcaConvert.rowBothCategory 0 = Except.ok rec ∧
      List.lookup "category" rec = some (NrcaConvert.CVal.s "Food") := by
  have h : NrcaConvert.normalizeRow NrcaConvert.rowBothCategory 0 =
      Except.ok (NrcaConvert.mkRetailer NrcaConvert.rowBothCategory 0
        Option.none Option.none Option.none Option.none) := rfl
  refine ⟨_, h, ?_⟩
  have := (alias_precedence_first_nonempty NrcaConvert.rowBothCategory 0 _
    "category" "category_level1" "Category" (by decide) h).1 (by decide)
  simpa [NrcaConvert.rowBothCategory, NrcaConvert.rowGet] using this

/-- C3 counterexample: a row whose `latitude` is present but unparseable
is not emitted at all — the sheet loop produces no record for it, so the
field does not resolve to null on an emitted row. -/
theorem row_coercion_claim_false :
    NrcaConvert.processRows [NrcaConvert.rowBadLatitude] 0 = [] ∧
    ¬ ∃ rec, rec ∈ NrcaConvert.processRows [NrcaConvert.rowBadLatitude] 0 ∧
      List.lookup "latitude" rec = some (NrcaConvert.CVal.f Option.none) := by
  have h : NrcaConvert.processRows [NrcaConvert.rowBadLatitude] 0 = [] := rfl
  exact ⟨h, by simp [h]⟩

/-- C3 (amended): a present-but-unparseable numeric value raises a
coercion error that the sheet-level handler catches: the failing row and
all later rows of that sheet are dropped, rows of the sheet before the
failure are kept, and every other sheet is still processed — the run does
not abort. -/
theorem row_coercion_aborts_sheet (pre post : List NrcaConvert.RawRecord)
    (bad : NrcaConvert.RawRecord) (i : Nat)
    (hpre : NrcaConvert.allRowsOk pre i = true)
    (hbad : NrcaConvert.normalizeRow bad (i + pre.length) = Except.error ()) :
    NrcaConvert.processRows (pre ++ bad :: post) i = NrcaConvert.processRows pre i ∧
    ∀ sheets : List (List NrcaConvert.RawRecord),
      NrcaConvert.parseExcelFile ((pre ++ bad :: post) :: sheets) =
        NrcaConvert.processRows (pre ++ bad :: post) 0 ++
          NrcaConvert.parseExcelFile sheets :=
  ⟨NrcaConvert.processRows_append_of_error pre post bad i hpre hbad,
   fun sheets => NrcaConvert.parseExcelFile_cons (pre ++ bad :: post) sheets⟩

/-- C3 amended witness: a good row, then the unparseable row, then a
further row; only the good row's record is emitted. -/
theorem row_coercion_aborts_sheet_wit :
    NrcaConvert.allRowsOk [NrcaConvert.rowOnlyName] 0 = true ∧
    NrcaConvert.normalizeRow NrcaConvert.rowBadLatitude
      (0 + [NrcaConvert.rowOnlyName].length) = Except.error () ∧
    NrcaConvert.processRows
        ([NrcaConvert.rowOnlyName] ++ NrcaConvert.rowBadLatitude :: [[]]) 0 =
      NrcaConvert.processRows [NrcaConvert.rowOnlyName] 0 :=
  ⟨rfl, rfl, (row_coercion_aborts_sheet [NrcaConvert.rowOnlyName] [[]]
    NrcaConvert.rowBadLatitude 0 rfl rfl).1⟩

/-- C4: merging source A (m rows) then source B (n rows) — even when they
are discovered in the opposite order — processes them in lexicographic
name order and yields exactly m + n records: A's records in row order
followed by B's records in row order, with nothing deduplicated,
reordered or filtered out. -/
theorem merge_two_sources_ordered (nA nB : String)
    (A B : List NrcaConvert.RawRecord) (hlt : nA < nB)
    (hA : NrcaConvert.allRowsOk A 0 = true)
    (hB : NrcaConvert.allRowsOk B 0 = true) :
    NrcaConvert.mergeSources [(nB, [B]), (nA, [A])] =
      NrcaConvert.processRows A 0 ++ NrcaConvert.processRows B 0 ∧
    (NrcaConvert.mergeSources [(nB, [B]), (nA, [A])]).length =
      A.length + B.length ∧
    (∀ j, j < A.length →
      (NrcaConvert.mergeSources [(nB, [B]), (nA, [A])])[j]? =
        (NrcaConvert.processRows A 0)[j]?) ∧
    (∀ j, j < B.length →
      (NrcaConvert.mergeSources [(nB, [B]), (nA, [A])])[A.length + j]? =
        (NrcaConvert.processRows B 0)[j]?) := by
  have hlenA := NrcaConvert.processRows_length_of_ok A 0 hA
  have hlenB := NrcaConvert.processRows_length_of_ok B 0 hB
  have hme : NrcaConvert.mergeSources [(nB, [B]), (nA, [A])] =
      NrcaConvert.processRows A 0 ++ NrcaConvert.processRows B 0 := by
    simp [NrcaConvert.mergeSources, NrcaConvert.sortByName_pair nA nB [A] [B] hlt,
      NrcaConvert.parseExcelFile_single]
  refine ⟨hme, by simp [hme, hlenA, hlenB], fun j hj => ?_, fun j hj => ?_⟩
  · rw [hme]
    exact List.getElem?_append_left (hlenA ▸ hj)
  · rw [hme, List.getElem?_append_right (by omega)]
    congr 1
    omega

/-- C4 witness: two concrete one-sheet sources listed in reverse name
order merge into A's record followed by B's records. -/
theorem merge_two_sources_ordered_wit :
    ("a.xlsx" : String) < "b.xlsx" ∧
    NrcaConvert.mergeSources
        [("b.xlsx", NrcaConvert.fileBeta), ("a.xlsx", NrcaConvert.fileAlpha)] =
      NrcaConvert.processRows [NrcaConvert.rowOnlyName] 0 ++
        NrcaConvert.processRows [NrcaConvert.rowZeroPoiId, []] 0 :=
  ⟨by rw [String.lt_iff_toList_lt]; decide,
   (merge_two_sources_ordered "a.xlsx" "b.xlsx"
    [NrcaConvert.rowOnlyName] [NrcaConvert.rowZeroPoiId, []]
    (by rw [String.lt_iff_toList_lt]; decide) rfl rfl).1⟩

/-- C6: a raw record with no value (absent column or missing cell) for a
numeric field produces an explicit null for that field — never `0.0` and
never an empty string — for latitude, longitude, rating and
rating_count. -/
theorem absent_numeric_yields_null
    (row : NrcaConvert.RawRecord) (idx : Nat) (rec : NrcaConvert.Retailer)
    (h : NrcaConvert.normalizeRow row idx = Except.ok rec) :
    ((NrcaConvert.rowGet row "latitude" = NrcaConvert.PyVal.none ∨
        NrcaConvert.rowGet row "latitude" = NrcaConvert.PyVal.nan) →
      List.lookup "latitude" rec = some (NrcaConvert.CVal.f Option.none)) ∧
    ((NrcaConvert.rowGet row "longitude" = NrcaConvert.PyVal.none ∨
        NrcaConvert.rowGet row "longitude" = NrcaConvert.PyVal.nan) →
      List.lookup "longitude" rec = some (NrcaConvert.CVal.f Option.none)) ∧
    ((NrcaConvert.rowGet row "rating" = NrcaConvert.PyVal.none ∨
        NrcaConvert.rowGet row "rating" = NrcaConvert.PyVal.nan) →
      List.lookup "rating" rec = some (NrcaConvert.CVal.f Option.none)) ∧
    ((NrcaConvert.rowGet row "rating_count" = NrcaConvert.PyVal.none ∨
        NrcaConvert.rowGet row "rating_count" = NrcaConvert.PyVal.nan) →
      List.lookup "rating_count" rec = some (NrcaConvert.CVal.i Option.none)) := by
  obtain ⟨lat, lon, rat, rc, hlat, hlon, hrat, hrc, hrec⟩ :=
    NrcaConvert.normalizeRow_ok_elim row idx rec h
  subst hrec
  refine ⟨fun hv => ?_, fun hv => ?_, fun hv => ?_, fun hv => ?_⟩
  · have hl : lat = Option.none := by
      rcases hv with hv | hv <;> rw [hv] at hlat <;>
        simpa [NrcaConvert.coerceFloat] using hlat.symm
    subst hl; rfl
  · have hl : lon = Option.none := by
      rcases hv with hv | hv <;> rw [hv] at hlon <;>
        simpa [NrcaConvert.coerceFloat] using hlon.symm
    subst hl; rfl
  · have hl : rat = Option.none := by
      rcases hv with hv | hv <;> rw [hv] at hrat <;>
        simpa [NrcaConvert.coerceFloat] using hrat.symm
    subst hl; rfl
  · have hl : rc = Option.none := by
      rcases hv with hv | hv <;> rw [hv] at hrc <;>
        simpa [NrcaConvert.coerceInt] using hrc.symm
    subst hl; rfl

/-- C6 witness: a row with no numeric columns normalizes with all four
numeric fields null. -/
theorem absent_numeric_yields_null_wit :
    NrcaConvert.normalizeRow NrcaConvert.rowOnlyName 0 =
      Except.ok (NrcaConvert.mkRetailer NrcaConvert.rowOnlyName 0
        Option.none Option.none Option.none Option.none) ∧
    List.lookup "latitude" (NrcaConvert.mkRetailer NrcaConvert.rowOnlyName 0
        Option.none Option.none Option.none Option.none) =
      some (NrcaConvert.CVal.f Option.none) :=
  ⟨rfl, (absent_numeric_yields_null NrcaConvert.rowOnlyName 0 _ rfl).1
    (Or.inl rfl)⟩

/-- C7: with no recognizable id column, the id falls back to the decimal
string of the source-local 0-based row ordinal; with no recognizable name
column, the name falls back to the literal string Unknown. -/
theorem id_name_fallback_defaults
    (row : NrcaConvert.RawRecord) (idx : Nat) (rec : NrcaConvert.Retailer)
    (h : NrcaConvert.normalizeRow row idx = Except.ok rec) :
    (NrcaConvert.rowGet row "poi_id" = NrcaConvert.PyVal.none →
      NrcaConvert.rowGet row "ID" = NrcaConvert.PyVal.none →
      List.lookup "id" rec = some (NrcaConvert.CVal.s (toString idx))) ∧
    (NrcaConvert.rowGet row "name" = NrcaConvert.PyVal.none →
      NrcaConvert.rowGet row "Name" = NrcaConvert.PyVal.none →
      List.lookup "name" rec = some (NrcaConvert.CVal.s "Unknown")) := by
  obtain ⟨lat, lon, rat, rc, _, _, _, _, hrec⟩ :=
    NrcaConvert.normalizeRow_ok_elim row idx rec h
  subst hrec
  have hn : NrcaConvert.pyTruthy NrcaConvert.PyVal.none = false := rfl
  have hstr : NrcaConvert.pyStr (NrcaConvert.PyVal.int (idx : Int)) = toString idx := rfl
  constructor
  · intro h1 h2
    simp [NrcaConvert.mkRetailer, List.lookup, NrcaConvert.pyOr, h1, h2, hn, hstr]
  · intro h1 h2
    simp [NrcaConvert.mkRetailer, List.lookup, NrcaConvert.pyOr, h1, h2, hn,
      NrcaConvert.pyStr]

/-- C7 witness: the empty raw row at ordinal 41 yields id `41` and name
`Unknown`. -/
theorem id_name_fallback_defaults_wit :
    NrcaConvert.normalizeRow [] 41 =
      Except.ok (NrcaConvert.mkRetailer [] 41
        Option.none Option.none Option.none Option.none) ∧
    List.lookup "id" (NrcaConvert.mkRetailer [] 41
        Option.none Option.none Option.none Option.none) =
      some (NrcaConvert.CVal.s "41") ∧
    List.lookup "name" (NrcaConvert.mkRetailer [] 41
        Option.none Option.none Option.none Option.none) =
      some (NrcaConvert.CVal.s "Unknown") := by
  have h := id_name_fallback_defaults [] 41 _ rfl
  exact ⟨rfl, h.1 rfl rfl, h.2 rfl rfl⟩

/-- C10: alias resolution is truthiness-based over the whole value
domain: a falsy first-alias value (such as the number 0 under `poi_id`)
is skipped, so resolution falls through to the second alias and then the
row-ordinal default. -/
theorem falsy_alias_falls_through
    (row : NrcaConvert.RawRecord) (idx : Nat) (rec : NrcaConvert.Retailer)
    (h : NrcaConvert.normalizeRow row idx = Except.ok rec) :
    (NrcaConvert.pyTruthy (NrcaConvert.rowGet row "poi_id") = false →
      List.lookup "id" rec = some (NrcaConvert.CVal.s (NrcaConvert.pyStr
        (NrcaConvert.pyOr (NrcaConvert.rowGet row "ID")
          (NrcaConvert.PyVal.int (idx : Int)))))) ∧
    (NrcaConvert.rowGet row "poi_id" = NrcaConvert.PyVal.int 0 →
      NrcaConvert.rowGet row "ID" = NrcaConvert.PyVal.none →
      List.lookup "id" rec = some (NrcaConvert.CVal.s (toString idx))) := by
  obtain ⟨lat, lon, rat, rc, _, _, _, _, hrec⟩ :=
    NrcaConvert.normalizeRow_ok_elim row idx rec h
  subst hrec
  have hn : NrcaConvert.pyTruthy NrcaConvert.PyVal.none = false := rfl
  have h0 : NrcaConvert.pyTruthy (NrcaConvert.PyVal.int 0) = false := rfl
  have hstr : NrcaConvert.pyStr (NrcaConvert.PyVal.int (idx : Int)) = toString idx := rfl
  constructor
  · intro ht
    simp [NrcaConvert.mkRetailer, List.lookup, NrcaConvert.pyOr, ht]
  · intro h1 h2
    simp [NrcaConvert.mkRetailer, List.lookup, NrcaConvert.pyOr, h1, h2, hn, h0,
      hstr]

/-- C10 witness: `poi_id = 0` with no `ID` column at ordinal 7 yields id
`7`, not `0`. -/
theorem falsy_alias_falls_through_wit :
    NrcaConvert.normalizeRow NrcaConvert.rowZeroPoiId 7 =
      Except.ok (NrcaConvert.mkRetailer NrcaConvert.rowZeroPoiId 7
        Option.none Option.none Option.none Option.none) ∧
    List.lookup "id" (NrcaConvert.mkRetailer NrcaConvert.rowZeroPoiId 7
        Option.none Option.none Option.none Option.none) =
      some (NrcaConvert.CVal.s "7") :=
  ⟨rfl, (falsy_alias_falls_through NrcaConvert.rowZeroPoiId 7 _ rfl).2 rfl rfl⟩

/-- C8: the metadata of a merged record list is the total record count
together with the number of distinct non-empty values of police_force,
locality and category (distinctness by exact string equality, empty
strings and nulls excluded); on records with police_force values X, X, Y,
empty and null, the distinct-force count is 2. -/
theorem metadata_distinct_counts :
    (∀ rs : List NrcaConvert.Retailer, NrcaConvert.metadataOf rs =
      (rs.length, NrcaConvert.uniqueCount rs "police_force",
       NrcaConvert.uniqueCount rs "locality",
       NrcaConvert.uniqueCount rs "category")) ∧
    (∀ (rs : List NrcaConvert.Retailer) (k : String),
      NrcaConvert.uniqueCount rs k =
        ((rs.filter fun r => NrcaConvert.cTruthy
            (NrcaConvert.retailerGetD r k (NrcaConvert.CVal.f Option.none))).map
          fun r => NrcaConvert.retailerGetD r k
            (NrcaConvert.CVal.s "")).toFinset.card) ∧
    NrcaConvert.metadataOf NrcaConvert.forceExample = (5, 2, 0, 0) := by
  refine ⟨fun rs => rfl, fun rs k => ?_, by decide⟩
  rw [List.card_toFinset]
  rfl

/-- C9: the run produces no artifact exactly when the discovery filter
finds zero Excel sources; the empty-input condition is a distinct terminal
outcome, not a crash and not an empty artifact. -/
theorem empty_input_no_artifact (l : List (String × NrcaConvert.FileData)) :
    NrcaConvert.runConversion l = Option.none ↔
      l.filter NrcaConvert.isExcel = [] := by
  by_cases h : l.filter NrcaConvert.isExcel = [] <;>
    simp [NrcaConvert.runConversion, h]

namespace NrcaConvert

/-- A name-sorted listing with pairwise-distinct names is strictly
increasing on names. -/
lemma pairwise_lt_of_sorted_nodup (l : List (String × FileData))
    (hs : List.Sorted fileLe l) (hnd : (l.map Prod.fst).Nodup) :
    List.Pairwise (fun a b : String × FileData => a.1 < b.1) l := by
  induction l with
  | nil => exact List.Pairwise.nil
  | cons x xs ih =>
    rw [List.sorted_cons] at hs
    rw [List.map_cons, List.nodup_cons] at hnd
    refine List.Pairwise.cons (fun b hb => ?_) (ih hs.2 hnd.2)
    have hle : x.1 ≤ b.1 := hs.1 b hb
    have hne : x.1 ≠ b.1 := fun he => hnd.1 (he ▸ List.mem_map_of_mem Prod.fst hb)
    exact lt_of_le_of_ne hle hne

/-- With pairwise-distinct names, sorting by name is insensitive to the
discovery order of the listing. -/
lemma sortByName_eq_of_perm (l₁ l₂ : List (String × FileData))
    (hperm : l₁.Perm l₂) (hnd : (l₁.map Prod.fst).Nodup) :
    sortByName l₁ = sortByName l₂ := by
  haveI : IsAntisymm (String × FileData) (fun a b => a.1 < b.1) :=
    ⟨fun a b h1 h2 => absurd h2 (lt_asymm h1)⟩
  have hp1 : List.Perm (sortByName l₁) l₁ := List.perm_insertionSort fileLe l₁
  have hp2 : List.Perm (sortByName l₂) l₂ := List.perm_insertionSort fileLe l₂
  have hs1 : List.Sorted fileLe (sortByName l₁) := List.sorted_insertionSort fileLe l₁
  have hs2 : List.Sorted fileLe (sortByName l₂) := List.sorted_insertionSort fileLe l₂
  have hnd1 : ((sortByName l₁).map Prod.fst).Nodup :=
    ((hp1.map Prod.fst).nodup_iff).mpr hnd
  have hnd2 : ((sortByName l₂).map Prod.fst).Nodup :=
    ((hp2.map Prod.fst).nodup_iff).mpr (((hperm.map Prod.fst).nodup_iff).mp hnd)
  exact List.eq_of_perm_of_sorted (hp1.trans (hperm.trans hp2.symm))
    (pairwise_lt_of_sorted_nodup _ hs1 hnd1)
    (pairwise_lt_of_sorted_nodup _ hs2 hnd2)

end NrcaConvert

/-- C5: the conversion is deterministic in the inputs: two runs over the
same set of files (in any discovery order, with distinct file names)
produce byte-identical artifacts — same record ordering, same serialized
records, same metadata constants. -/
theorem conversion_deterministic (l₁ l₂ : List (String × NrcaConvert.FileData))
    (hperm : l₁.Perm l₂) (hnd : (l₁.map Prod.fst).Nodup) :
    NrcaConvert.runConversion l₁ = NrcaConvert.runConversion l₂ := by
  have hpf : (l₁.filter NrcaConvert.isExcel).Perm (l₂.filter NrcaConvert.isExcel) :=
    hperm.filter _
  have hndf : ((l₁.filter NrcaConvert.isExcel).map Prod.fst).Nodup :=
    hnd.sublist ((List.filter_sublist l₁).map Prod.fst)
  have hsort := NrcaConvert.sortByName_eq_of_perm _ _ hpf hndf
  by_cases hnil : l₁.filter NrcaConvert.isExcel = []
  · have hnil₂ : l₂.filter NrcaConvert.isExcel = [] :=
      (hnil ▸ hpf).symm.eq_nil
    simp [NrcaConvert.runConversion, hnil, hnil₂]
  · have hnil₂ : ¬ l₂.filter NrcaConvert.isExcel = [] := fun h =>
      hnil ((h ▸ hpf).eq_nil)
    simp [NrcaConvert.runConversion, hnil, hnil₂, NrcaConvert.mergeSources, hsort]

/-- C5 witness: the same two concrete files listed in either order give
the identical artifact. -/
theorem conversion_deterministic_wit :
    NrcaConvert.runConversion
        [("b.xlsx", NrcaConvert.fileBeta), ("a.xlsx", NrcaConvert.fileAlpha)] =
      NrcaConvert.runConversion
        [("a.xlsx", NrcaConvert.fileAlpha), ("b.xlsx", NrcaConvert.fileBeta)] :=
  conversion_deterministic _ _ (List.Perm.swap _ _ _) (by decide)
